import Mathlib

/-!
Verification of the supervision / transport / codec layer of
`stanford_corenlp_pywrapper/sockwrap.py` (a Python 2 client for a java
socket server).  The definitions below are a shallow embedding of that
file: byte strings (Python 2 `str`) are `List Nat` of byte values,
machine-level channel I/O is an explicit schedule of read outcomes, and
Python exceptions are the error side of `Except`.
-/

/-- Python exceptions that the embedded code can raise or catch.
`socketTimeout` is `socket.timeout` (a subclass of `socket.error`),
`socketError` is any other `socket.error`, `structError` is raised by
`struct.unpack` on a buffer of the wrong length, `ioError` by reads of the
named pipe, `keyError` by a failed dict lookup, `assertionError` by a
failing `assert`. -/
inductive PyErr
  | socketTimeout
  | socketError
  | structError
  | ioError
  | keyError
  | assertionError
deriving DecidableEq

/-- The two communication modes of the wrapper (`comm_mode` in the source). -/
inductive CommMode
  | SOCKET
  | PIPE
deriving DecidableEq

/-- Outcome of one low-level channel read as scheduled by the environment:
either delivered bytes (possibly fewer than requested, possibly empty on a
half-open channel), a timeout, or another transport-level error. -/
inductive ReadResult
  | data (b : List Nat)
  | timeout
  | err
deriving DecidableEq

/-- Number of bytes a scheduled read outcome carries. -/
def readLen : ReadResult → Nat
  | .data b => b.length
  | .timeout => 0
  | .err => 0

/-- Whether a scheduled read outcome delivers data (rather than raising). -/
def readIsData : ReadResult → Bool
  | .data _ => true
  | .timeout => false
  | .err => false

/-- One call's view of the channel: whether the nth connect attempt of
`get_socket` succeeds, what the single 8-byte header read yields, and what
the nth payload-loop read yields. -/
structure Chan where
  connects : Nat → Bool
  header : ReadResult
  reads : Nat → ReadResult

/-- Observable channel operations performed by the wrapper; used to state
trace properties (fresh socket per call, absence of `close`, read counts). -/
inductive ChanOp
  | newSocket (trial : Nat)
  | connect (trial : Nat)
  | settimeout (t : Nat)
  | sendall (b : List Nat)
  | sockRecv (n : Nat)
  | sockClose
  | pipeWrite (b : List Nat)
  | pipeFlush
  | pipeRead (n : Nat)
  | sleepOp
deriving DecidableEq

/-- The read operation the payload loop issues for `n` remaining bytes,
per mode (`sock.recv(n)` or `self.outpipe_fp.read(n)`). -/
def recvOp (mode : CommMode) (n : Nat) : ChanOp :=
  match mode with
  | .SOCKET => .sockRecv n
  | .PIPE => .pipeRead n

/-- Embeds `CoreNLP.get_socket` (sockwrap.py lines 216-229): up to
`num_retries` trials, each creating a fresh socket object and attempting a
connect; a failed trial sleeps (except after the last) and retries; falling
out of the loop hits `assert False, "couldnt connect socket"`.  The `Nat`
result is the index of the successful trial, identifying the fresh socket
object this call obtained.  The first argument counts remaining trials, the
second is the current trial index. -/
def get_socket (connects : Nat → Bool) : Nat → Nat → (Except PyErr Nat) × List ChanOp
  | 0, _ => (.error .assertionError, [])
  | rem+1, trial =>
    if connects trial then (.ok trial, [.newSocket trial, .connect trial])
    else
      let rest := get_socket connects rem (trial+1)
      (rest.1, .newSocket trial :: .connect trial ::
        (if 0 < rem then ChanOp.sleepOp :: rest.2 else rest.2))

/-- `curlen` of the source (line 271): total bytes accumulated so far,
`sum(len(x) for x in chunks)`. -/
def curlen (chunks : List (List Nat)) : Nat :=
  (chunks.map List.length).sum

/-- Embeds the payload-accumulation `while True` loop of
`CoreNLP.send_command_and_get_string_result` (lines 270-284): read up to the
remaining byte count, append the chunk, stop with the joined payload once
enough arrived, give up with `None` once more than 1000 chunks accumulated,
otherwise sleep 0.01s and retry.  The extra `fuel` argument only makes the
recursion structural: it starts at 1002, strictly more than the 1001
iterations the 1000-chunk cap permits, so the fuel-exhaustion branch is
unreachable (`recvLoopF_fuel_stable` below certifies fuel irrelevance).
A read raises `socket.timeout`/`socket.error` in SOCKET mode and `IOError`
in PIPE mode; an exception propagates out of the loop. -/
def recvLoopF (mode : CommMode) (reads : Nat → ReadResult) (size : Nat) :
    Nat → Nat → List (List Nat) → (Except PyErr (Option (List Nat))) × List ChanOp
  | 0, _, _ => (.ok none, [])
  | fuel+1, n, chunks =>
    let remaining := size - curlen chunks
    match reads n with
    | .timeout =>
        (.error (if mode = .SOCKET then .socketTimeout else .ioError), [recvOp mode remaining])
    | .err =>
        (.error (if mode = .SOCKET then .socketError else .ioError), [recvOp mode remaining])
    | .data raw =>
      let chunk := raw.take remaining
      let chunks2 := chunks ++ [chunk]
      if size ≤ curlen chunks2 then (.ok (some chunks2.flatten), [recvOp mode remaining])
      else if 1000 < chunks2.length then (.ok none, [recvOp mode remaining])
      else
        let rest := recvLoopF mode reads size fuel (n+1) chunks2
        (rest.1, recvOp mode remaining :: ChanOp.sleepOp :: rest.2)

/-- The payload loop as entered from line 270: no chunks yet, first read. -/
def recv_payload (mode : CommMode) (reads : Nat → ReadResult) (size : Nat) :
    (Except PyErr (Option (List Nat))) × List ChanOp :=
  recvLoopF mode reads size 1002 0 []

/-- Big-endian unsigned interpretation of the 8 header bytes, i.e.
`struct.unpack('>Q', size_info_str)[0]` (line 267). -/
def beVal (h : List Nat) : Nat :=
  h.foldl (fun acc b => acc * 256 + b) 0

/-- Embeds `CoreNLP.send_command_and_get_string_result` (lines 254-284).
SOCKET mode: obtain a fresh connection via `get_socket` (100 retries), set
the caller's timeout on it, send `cmd + "\n"`, read the 8-byte length
header; PIPE mode: write `cmd + "\n"` to the worker's stdin, flush, read 8
header bytes from the persistent pipe handle.  `struct.unpack('>Q', ...)`
raises `struct.error` unless exactly 8 header bytes arrived; otherwise the
payload loop runs for the declared size.  Note the function never emits
`ChanOp.sockClose`: the source contains no `sock.close()` on this path. -/
def send_command_and_get_string_result (mode : CommMode) (chan : Chan)
    (cmd : List Nat) (timeout : Nat) :
    (Except PyErr (Option (List Nat))) × List ChanOp :=
  let pre : (Except PyErr Unit) × List ChanOp :=
    match mode with
    | .SOCKET =>
      let gs := get_socket chan.connects 100 0
      match gs.1 with
      | .error e => (.error e, gs.2)
      | .ok _ =>
          (.ok (), gs.2 ++ [.settimeout timeout, .sendall (cmd ++ [10]), .sockRecv 8])
    | .PIPE => (.ok (), [.pipeWrite (cmd ++ [10]), .pipeFlush, .pipeRead 8])
  match pre.1 with
  | .error e => (.error e, pre.2)
  | .ok _ =>
    match chan.header with
    | .timeout => (.error (if mode = .SOCKET then .socketTimeout else .ioError), pre.2)
    | .err => (.error (if mode = .SOCKET then .socketError else .ioError), pre.2)
    | .data h =>
      let h8 := h.take 8
      if h8.length = 8 then
        let rest := recv_payload mode chan.reads (beVal h8)
        (rest.1, pre.2 ++ rest.2)
      else (.error .structError, pre.2)

/-- A JSON value as decoded by the (u)json library the source imports. -/
inductive JsonVal
  | str (b : List Nat)
  | num (n : Int)
  | bool (b : Bool)
  | null
deriving DecidableEq

/-- What `send_command_and_parse_result` hands back on success: the raw
byte string (when `raw=True`) or a decoded JSON value. -/
inductive PyResult
  | raw (b : List Nat)
  | json (j : JsonVal)
deriving DecidableEq

/-- Model of the external JSON codec (`import ujson as json` / `import
json`) on the byte strings this development evaluates: a quoted string
literal without inner quote or backslash bytes decodes to that string;
every other input — in particular the empty string and unquoted text such
as the raw bytes `PONG` — fails (`ValueError`), reported as `none`.
Universally quantified theorems below take the decoder as a parameter
`jloads` instead; this concrete model only instantiates witnesses. -/
def json_loads_model (s : List Nat) : Option JsonVal :=
  match s with
  | 34 :: rest =>
    if rest ≠ [] ∧ rest.getLast? = some 34 ∧
        rest.dropLast.all (fun b => b ≠ 34 ∧ b ≠ 92) then
      some (.str rest.dropLast)
    else none
  | _ => none

/-- Embeds `CoreNLP.send_command_and_parse_result` (lines 231-248) for a
call on which `ensure_proc_is_running` (line 233) is a no-op, i.e. the
worker process is alive; `ensure_proc_is_running` itself is modelled
separately below.  The `try`/`except socket.timeout` wrapper turns a
timeout into `None`; an inner `except ValueError` turns a JSON decode
failure into `None`; `raw=True` skips decoding; every other exception
(e.g. `struct.error`, non-timeout `socket.error`) propagates to the
caller.  `jloads` is the imported JSON decoder. -/
def send_command_and_parse_result (jloads : List Nat → Option JsonVal)
    (mode : CommMode) (chan : Chan) (cmd : List Nat) (timeout : Nat) (raw : Bool) :
    (Except PyErr (Option PyResult)) × List ChanOp :=
  let r := send_command_and_get_string_result mode chan cmd timeout
  let v : Except PyErr (Option PyResult) :=
    match r.1 with
    | .error .socketTimeout => .ok none
    | .error e => .error e
    | .ok none => .ok none
    | .ok (some data) =>
      if raw then .ok (some (.raw data))
      else
        match jloads data with
        | none => .ok none
        | some j => .ok (some (.json j))
  (v, r.2)

/-- The bytes of the handshake request `'PING\t""'` (line 180). -/
def pingCmd : List Nat := [80, 73, 78, 71, 9, 34, 34]

/-- The bytes of the expected decoded handshake reply `"PONG"` (line 183). -/
def PONG : List Nat := [80, 79, 78, 71]

/-- Terminal outcomes of the startup ping loop: the server is declared
ready, or the handshake dies with an uncaught exception. -/
inductive PingOutcome
  | ready
  | failed (e : PyErr)
deriving DecidableEq

/-- The result of the ith ping attempt of the startup loop: one call of
`send_command_and_parse_result('PING\t""', 2)` against that attempt's view
of the channel. -/
def pingAttemptResult (jloads : List Nat → Option JsonVal) (mode : CommMode)
    (att : Nat → Chan) (i : Nat) : Except PyErr (Option PyResult) :=
  (send_command_and_parse_result jloads mode (att i) pingCmd 2 false).1

/-- Embeds the `while True` startup handshake loop of `CoreNLP.start_server`
(lines 178-189).  A `None` result (timeout or undecodable payload) hits
`continue` and silently retries; a decoded value equal to the string
`"PONG"` breaks out ready; any other decoded value fails the
`assert ret == "PONG"` fatally (the source would raise `AssertionError`,
or `TypeError` while building the message for a non-string value — either
way an uncaught, non-retried exception, modelled as `assertionError`);
`except socket.error` (which also covers `socket.timeout`) sleeps one fixed
interval and retries; any other exception propagates and kills the
handshake.  The loop is unbounded in the source; `fuel` counts how many
iterations we unroll, and `none` means the loop is still retrying after
`fuel` iterations. -/
def startup_ping_loop (jloads : List Nat → Option JsonVal) (mode : CommMode)
    (att : Nat → Chan) : Nat → Nat → Option PingOutcome
  | _, 0 => none
  | i, fuel+1 =>
    match pingAttemptResult jloads mode att i with
    | .ok none => startup_ping_loop jloads mode att (i+1) fuel
    | .ok (some v) =>
      if v = PyResult.json (.str PONG) then some .ready
      else some (.failed .assertionError)
    | .error .socketError => startup_ping_loop jloads mode att (i+1) fuel
    | .error .socketTimeout => startup_ping_loop jloads mode att (i+1) fuel
    | .error e => some (.failed e)

/-- A ping attempt outcome the startup loop silently retries: no result,
or a transport-level `socket.error` (including its `socket.timeout`
subclass, though `send_command_and_parse_result` already converts the
latter to no-result). -/
def pingRetriable (o : Except PyErr (Option PyResult)) : Prop :=
  o = .ok none ∨ o = .error .socketError ∨ o = .error .socketTimeout

/-- The worker process handle as the supervisor sees it: `subprocess.Popen`
object with its pid; `poll` is `Popen.poll()` — `none` while the process
runs, the exit code once it has been observed to exit. -/
structure ProcHandle where
  pid : Nat
  poll : Option Int
deriving DecidableEq

/-- Embeds `CoreNLP.ensure_proc_is_running` (lines 193-199).  `proc` is
`self.proc` (`none` = never started).  The returned `Bool` records whether
`start_server` was invoked (respawning the worker and redriving the whole
startup handshake); `start_result` abstracts the process handle that
`start_server` would install, whose spawn and handshake are modelled by
`CoreNLP_init` and `startup_ping_loop`.  When nothing needs starting the
handle is returned untouched. -/
def ensure_proc_is_running (start_result : Option ProcHandle)
    (proc : Option ProcHandle) : Bool × Option ProcHandle :=
  match proc with
  | none => (true, start_result)
  | some p => if p.poll.isSome then (true, start_result) else (false, some p)

/-- Truthiness of an optional Python string: `None` and `""` are falsy. -/
def pyTruthyStr : Option String → Bool
  | none => false
  | some s => s ≠ ""

/-- The per-session state `cleanup` and `kill_proc_if_running` touch:
the process handle, `self.outpipe` (a path in PIPE mode, `None` in SOCKET
mode) and whether that path currently exists on disk. -/
structure PySession where
  proc : Option ProcHandle
  outpipe : Option String
  pipeExists : Bool
deriving DecidableEq

/-- Externally visible teardown effects: a `SIGKILL` sent via `os.kill`,
and `os.unlink` of the pipe file. -/
inductive CleanupEff
  | sigkill (pid : Nat)
  | unlinkPipe
deriving DecidableEq

/-- Embeds `CoreNLP.kill_proc_if_running` (lines 201-210): a never-started
handle returns immediately; an observed-exited handle only logs the exit
code; a live handle gets `os.kill(pid, 9)`.  After the SIGKILL the process
is dead, so every later `poll()` observes an exit — modelled by recording
a signal-death exit code on the handle. -/
def kill_proc_if_running (s : PySession) : PySession × List CleanupEff :=
  match s.proc with
  | none => (s, [])
  | some p =>
    match p.poll with
    | some _ => (s, [])
    | none => ({ s with proc := some { pid := p.pid, poll := some (-9) } }, [.sigkill p.pid])

/-- Embeds `CoreNLP.cleanup` (lines 150-153): kill the worker if it is
running, then `os.unlink(self.outpipe)` guarded by
`if self.outpipe and os.path.exists(self.outpipe)`.  Both the explicit
call and the `atexit`/`__del__` hooks run exactly this routine. -/
def cleanup (s : PySession) : PySession × List CleanupEff :=
  let k := kill_proc_if_running s
  if pyTruthyStr k.1.outpipe && k.1.pipeExists then
    ({ k.1 with pipeExists := false }, k.2 ++ [.unlinkPipe])
  else (k.1, k.2)

/-- Externally visible construction effects; `spawnWorker` is the
`subprocess.Popen` performed inside `start_server`. -/
inductive InitEvent
  | spawnWorker
deriving DecidableEq

/-- Embeds the effectful skeleton of `CoreNLP.__init__` (lines 118-148) for
the construction checks the claims concern: in PIPE mode
`assert not os.path.exists(self.outpipe)`; then
`assert isinstance(corenlp_jars, (list,tuple))` (guaranteed here by
typing); then the jar check
`assert any(os.path.exists(f) for f in deglobbed)` over the glob expansion
of `corenlp_jars`; only after it does `start_server` spawn the worker
(modelled as the `spawnWorker` event — its handshake internals are
modelled separately).  `globFn` is `glob.glob` and `fsExists` is
`os.path.exists`, both environment-supplied. -/
def CoreNLP_init (globFn : String → List String) (fsExists : String → Bool)
    (comm_mode : CommMode) (outpipePathExists : Bool) (corenlp_jars : List String) :
    (Except PyErr Unit) × List InitEvent :=
  if comm_mode = .PIPE && outpipePathExists then (.error .assertionError, [])
  else
    let deglobbed := corenlp_jars.flatMap globFn
    if deglobbed.any fsExists then (.ok (), [.spawnWorker])
    else (.error .assertionError, [])

/-- A Python dict with string keys and values, as an insertion-ordered
association list. -/
abbrev Dict : Type := List (String × String)

/-- Dict lookup: `d[k]` if present. -/
def dget (d : Dict) (k : String) : Option String :=
  (d.find? (fun kv => kv.1 == k)).map (fun kv => kv.2)

/-- Dict assignment `d[k] = v`: replaces in place if the key exists,
appends otherwise (Python dicts keep insertion order). -/
def dset (d : Dict) (k v : String) : Dict :=
  if (d.find? (fun kv => kv.1 == k)).isSome then
    d.map (fun kv => if kv.1 == k then (k, v) else kv)
  else d ++ [(k, v)]

/-- The `MODES` table (lines 16-32) restricted to the annotator strings;
the `description` fields are display-only and unused by the embedded
logic. -/
def MODES_annotators : List (String × String) :=
  [("ssplit", "tokenize, ssplit"),
   ("pos", "tokenize, ssplit, pos, lemma"),
   ("ner", "tokenize, ssplit, pos, lemma, ner, entitymentions"),
   ("parse", "tokenize, ssplit, pos, lemma, parse"),
   ("nerparse", "tokenize, ssplit, pos, lemma, ner, entitymentions, parse"),
   ("coref", "tokenize, ssplit, pos, lemma, ner, entitymentions, parse, dcoref")]

/-- `MODES[mode]['annotators']`; `none` means the lookup raises KeyError. -/
def modesLookup (m : String) : Option String :=
  (MODES_annotators.find? (fun kv => kv.1 == m)).map (fun kv => kv.2)

/-- Embeds the mode/configdict handling of `command` (lines 53-67), which
runs during construction (`start_server` line 167 calls
`command(**self.__dict__)` with the caller's `configdict` object aliased
by `self.configdict`).  Returns the state of the caller's dict object
after the call: line 67 `configdict['annotators'] = ...` writes through
the alias.  When the caller passed no dict, line 65 builds a fresh local
`{}` and the caller-visible value stays `none`.  The command-string
assembly of lines 68-81 needs no modelling for the claims.  `if mode:`
is Python truthiness, so the empty string counts as no mode. -/
def command_configdict_after (mode configfile : Option String)
    (configdict : Option Dict) : Except PyErr (Option Dict) :=
  if mode = none ∧ configfile = none ∧ configdict = none then .error .assertionError
  else
    match mode with
    | none => .ok configdict
    | some m =>
      if m = "" then .ok configdict
      else
        match configdict with
        | some d =>
          if (dget d "annotators").isSome then .error .assertionError
          else
            match modesLookup m with
            | some ann => .ok (some (dset d "annotators" ann))
            | none => .error .keyError
        | none =>
          match modesLookup m with
          | some _ => .ok none
          | none => .error .keyError

/-- The 8 big-endian length bytes for a payload shorter than 256 bytes. -/
def lenByte (n : Nat) : List Nat := [0, 0, 0, 0, 0, 0, 0, n]

/-- A channel whose one framed response carries `payload`: connects
immediately, the header read delivers all 8 length bytes, every payload
read delivers the whole payload. -/
def mkChan (payload : List Nat) : Chan :=
  ⟨fun _ => true, .data (lenByte payload.length), fun _ => .data payload⟩

/-- A channel on which the 8-byte header read returns no bytes at all
(peer closed the connection before writing the length). -/
def shortHeaderChan : Chan :=
  ⟨fun _ => true, .data [], fun _ => .data []⟩

/-- A channel on which the header read raises a non-timeout
`socket.error`. -/
def hdrErrChan : Chan :=
  ⟨fun _ => true, .err, fun _ => .data []⟩

/-- Ping-attempt schedule for the handshake counterexample: attempt 0's
reply is a full frame whose payload is the raw bytes `PONG` (not
JSON-encoded, hence undecodable); attempt 1's reply is the JSON-encoded
`"PONG"`. -/
def rawPongThenJsonPong : Nat → Chan :=
  fun i => if i = 0 then mkChan PONG else mkChan ([34] ++ PONG ++ [34])

/-- Ping-attempt schedule for the handshake witness: attempt 0 decodes to
the JSON string `"X"`, which is not `"PONG"`. -/
def wrongStringPingAtt : Nat → Chan :=
  fun _ => mkChan [34, 88, 34]

/-- A channel whose framed response declares length zero: the header read
delivers eight zero bytes and every payload read delivers nothing. -/
def zeroChan : Chan :=
  ⟨fun _ => true, .data (List.replicate 8 0), fun _ => .data []⟩

/-- Total bytes the first `n` scheduled reads could deliver. -/
def sumReadLens (reads : Nat → ReadResult) : Nat → Nat
  | 0 => 0
  | n+1 => sumReadLens reads n + readLen (reads n)

/-- Number of read operations in a trace. -/
def countReads (ops : List ChanOp) : Nat :=
  (ops.filter (fun o =>
    match o with
    | .sockRecv _ => true
    | .pipeRead _ => true
    | _ => false)).length

lemma curlen_append (l : List (List Nat)) (x : List Nat) :
    curlen (l ++ [x]) = curlen l + x.length := by
  simp [curlen]

lemma sumReadLens_succ (r : Nat → ReadResult) (n : Nat) :
    sumReadLens r (n+1) = sumReadLens r n + readLen (r n) := rfl

lemma sumReadLens_mono (r : Nat → ReadResult) {m n : Nat} (h : m ≤ n) :
    sumReadLens r m ≤ sumReadLens r n := by
  induction n with
  | zero => simp [Nat.le_zero.mp h]
  | succ n ih =>
    by_cases hm : m = n + 1
    · subst hm; exact Nat.le_refl _
    · have h2 : m ≤ n := by omega
      calc sumReadLens r m ≤ sumReadLens r n := ih h2
        _ ≤ sumReadLens r (n+1) := by rw [sumReadLens_succ]; omega

/-- One unfolding step of the receive loop at positive fuel. -/
lemma recvLoopF_succ (mode : CommMode) (reads : Nat → ReadResult)
    (size fuel n : Nat) (chunks : List (List Nat)) :
    recvLoopF mode reads size (fuel+1) n chunks =
    (let remaining := size - curlen chunks
     match reads n with
     | .timeout =>
         (.error (if mode = .SOCKET then .socketTimeout else .ioError), [recvOp mode remaining])
     | .err =>
         (.error (if mode = .SOCKET then .socketError else .ioError), [recvOp mode remaining])
     | .data raw =>
       let chunk := raw.take remaining
       let chunks2 := chunks ++ [chunk]
       if size ≤ curlen chunks2 then (.ok (some chunks2.flatten), [recvOp mode remaining])
       else if 1000 < chunks2.length then (.ok none, [recvOp mode remaining])
       else
         let rest := recvLoopF mode reads size fuel (n+1) chunks2
         (rest.1, recvOp mode remaining :: ChanOp.sleepOp :: rest.2)) := rfl

/-- Fuel irrelevance of the embedded receive loop: as long as the fuel
exceeds the iterations the 1000-chunk cap can allow, adding more fuel
changes nothing, so the fuel-exhaustion branch of `recvLoopF` is
unreachable from `recv_payload`. -/
lemma recvLoopF_fuel_stable (mode : CommMode) (reads : Nat → ReadResult) (size : Nat) :
    ∀ fuel n chunks, chunks.length ≤ 1000 → 1002 ≤ chunks.length + fuel →
    recvLoopF mode reads size fuel n chunks = recvLoopF mode reads size (fuel+1) n chunks := by
  intro fuel
  induction fuel with
  | zero => intro n chunks h1 h2; omega
  | succ fuel ih =>
    intro n chunks h1 h2
    rw [recvLoopF_succ, recvLoopF_succ]
    cases hr : reads n with
    | timeout => simp only [hr]
    | err => simp only [hr]
    | data raw =>
      simp only [hr]
      by_cases hb : size ≤ curlen (chunks ++ [raw.take (size - curlen chunks)])
      · simp only [hb, if_true]
      · simp only [hb, if_false]
        by_cases hc : 1000 < (chunks ++ [raw.take (size - curlen chunks)]).length
        · simp only [hc, if_true]
        · simp only [hc, if_false]
          have hlen : (chunks ++ [raw.take (size - curlen chunks)]).length
              = chunks.length + 1 := by simp
          rw [ih (n+1) (chunks ++ [raw.take (size - curlen chunks)])
            (by omega) (by omega)]

/-- Core of the truncated-response bound: whenever every scheduled read
delivers data but the first 1001 reads together cannot reach the declared
size, the loop runs into the 1000-chunk cap and gives up with `None`. -/
lemma recvLoopF_under_none (mode : CommMode) (reads : Nat → ReadResult) (size : Nat)
    (hdata : ∀ k, k ≤ 1000 → readIsData (reads k) = true)
    (hsum : sumReadLens reads 1001 < size) :
    ∀ fuel n chunks, chunks.length = n → fuel + n = 1002 → n ≤ 1000 →
      curlen chunks ≤ sumReadLens reads n →
      (recvLoopF mode reads size fuel n chunks).1 = .ok none := by
  intro fuel
  induction fuel with
  | zero => intro n chunks h1 h2 h3 h4; omega
  | succ fuel ih =>
    intro n chunks hlen hfuel hn hcur
    have hd := hdata n hn
    rw [recvLoopF_succ]
    cases hr : reads n with
    | timeout => rw [hr] at hd; simp [readIsData] at hd
    | err => rw [hr] at hd; simp [readIsData] at hd
    | data raw =>
      simp only [hr]
      have hrawlen : readLen (reads n) = raw.length := by rw [hr]; rfl
      have htake : (raw.take (size - curlen chunks)).length ≤ raw.length := by
        simp [List.length_take]
      have hstep : curlen (chunks ++ [raw.take (size - curlen chunks)])
          ≤ sumReadLens reads (n+1) := by
        rw [curlen_append, sumReadLens_succ, hrawlen]
        omega
      have hmono := sumReadLens_mono reads (show n + 1 ≤ 1001 by omega)
      have hb : ¬ size ≤ curlen (chunks ++ [raw.take (size - curlen chunks)]) := by
        omega
      simp only [hb, if_false]
      have hlen2 : (chunks ++ [raw.take (size - curlen chunks)]).length
          = n + 1 := by simp [hlen]
      by_cases hc : 1000 < (chunks ++ [raw.take (size - curlen chunks)]).length
      · simp only [hc, if_true]
      · simp only [hc, if_false]
        exact ih (n+1) (chunks ++ [raw.take (size - curlen chunks)])
          hlen2 (by omega) (by omega) hstep

/-- The receive loop issues at most `1001 - chunks.length` reads before it
returns: each iteration reads once, and the 1000-chunk cap stops it. -/
lemma recvLoopF_reads_le (mode : CommMode) (reads : Nat → ReadResult) (size : Nat) :
    ∀ fuel n chunks, chunks.length ≤ 1000 →
      countReads (recvLoopF mode reads size fuel n chunks).2 ≤ 1001 - chunks.length := by
  intro fuel
  induction fuel with
  | zero =>
    intro n chunks h1
    simp [recvLoopF, countReads]
  | succ fuel ih =>
    intro n chunks h1
    rw [recvLoopF_succ]
    have hro : ∀ m, countReads [recvOp mode m] = 1 := by
      intro m; cases mode <;> simp [countReads, recvOp]
    cases hr : reads n with
    | timeout => simp only [hr]; rw [hro]; omega
    | err => simp only [hr]; rw [hro]; omega
    | data raw =>
      simp only [hr]
      by_cases hb : size ≤ curlen (chunks ++ [raw.take (size - curlen chunks)])
      · simp only [hb, if_true]; rw [hro]; omega
      · simp only [hb, if_false]
        by_cases hc : 1000 < (chunks ++ [raw.take (size - curlen chunks)]).length
        · simp only [hc, if_true]; rw [hro]; omega
        · simp only [hc, if_false]
          have hlen : (chunks ++ [raw.take (size - curlen chunks)]).length
              = chunks.length + 1 := by simp
          have hcons : ∀ m (ops : List ChanOp),
              countReads (recvOp mode m :: ChanOp.sleepOp :: ops) = 1 + countReads ops := by
            intro m ops; cases mode <;> simp [countReads, recvOp, List.filter] <;> omega
          rw [hcons]
          have := ih (n+1) (chunks ++ [raw.take (size - curlen chunks)]) (by omega)
          omega

/-- `get_socket` never emits a close operation. -/
lemma get_socket_noClose (c : Nat → Bool) :
    ∀ rem trial, ChanOp.sockClose ∉ (get_socket c rem trial).2 := by
  intro rem
  induction rem with
  | zero => intro trial; simp [get_socket]
  | succ rem ih =>
    intro trial
    by_cases h : c trial
    · simp [get_socket, h]
    · simp only [get_socket, h, if_false]
      by_cases h2 : 0 < rem <;> simp [h2] <;> simpa using ih (trial+1)

/-- With at least one trial remaining, `get_socket`'s first operation is
the creation of a fresh socket object for the current trial. -/
lemma get_socket_shape (c : Nat → Bool) (rem trial : Nat) (h : 0 < rem) :
    ∃ rest, (get_socket c rem trial).2 = ChanOp.newSocket trial :: rest := by
  cases rem with
  | zero => omega
  | succ rem =>
    by_cases hc : c trial
    · exact ⟨[.connect trial], by simp [get_socket, hc]⟩
    · refine ⟨.connect trial ::
        (if 0 < rem then ChanOp.sleepOp :: (get_socket c rem (trial+1)).2
         else (get_socket c rem (trial+1)).2), ?_⟩
      simp [get_socket, hc]

/-- The receive loop never emits a close operation. -/
lemma recvLoopF_noClose (mode : CommMode) (reads : Nat → ReadResult) (size : Nat) :
    ∀ fuel n chunks, ChanOp.sockClose ∉ (recvLoopF mode reads size fuel n chunks).2 := by
  intro fuel
  induction fuel with
  | zero => intro n chunks; simp [recvLoopF]
  | succ fuel ih =>
    intro n chunks
    rw [recvLoopF_succ]
    have hrop : ∀ m, ChanOp.sockClose ≠ recvOp mode m := by
      intro m; cases mode <;> simp [recvOp]
    cases hr : reads n with
    | timeout => simp only [hr]; simp [hrop]
    | err => simp only [hr]; simp [hrop]
    | data raw =>
      simp only [hr]
      by_cases hb : size ≤ curlen (chunks ++ [raw.take (size - curlen chunks)])
      · simp [hb, hrop]
      · simp only [hb, if_false]
        by_cases hc : 1000 < (chunks ++ [raw.take (size - curlen chunks)]).length
        · simp only [hc, if_true]; simp [hrop]
        · simp only [hc, if_false]
          simp only [List.mem_cons]
          push_neg
          exact ⟨hrop _, by simp, ih (n+1) (chunks ++ [raw.take (size - curlen chunks)])⟩

/-- Trace decomposition of a SOCKET-mode call: whatever the channel does,
the trace starts with the full `get_socket` trace and continues with
operations among which no close ever appears. -/
lemma send_command_socket_trace (chan : Chan) (cmd : List Nat) (t : Nat) :
    ∃ ops2, (send_command_and_get_string_result .SOCKET chan cmd t).2
        = (get_socket chan.connects 100 0).2 ++ ops2 ∧
      ChanOp.sockClose ∉ ops2 := by
  rcases hgs : (get_socket chan.connects 100 0).1 with e | s
  · exact ⟨[], by simp [send_command_and_get_string_result, hgs]⟩
  · rcases hh : chan.header with h | _ | _
    · by_cases h8 : 8 ≤ h.length
      · refine ⟨[.settimeout t, .sendall (cmd ++ [10]), .sockRecv 8]
            ++ (recv_payload .SOCKET chan.reads (beVal (h.take 8))).2, ?_, ?_⟩
        · simp [send_command_and_get_string_result, hgs, hh, List.length_take, h8,
            Nat.min_eq_left]
        · have := recvLoopF_noClose .SOCKET chan.reads (beVal (h.take 8)) 1002 0 []
          simp only [recv_payload]
          simp [this]
      · exact ⟨[.settimeout t, .sendall (cmd ++ [10]), .sockRecv 8],
          by simp [send_command_and_get_string_result, hgs, hh, List.length_take, h8], by simp⟩
    · exact ⟨[.settimeout t, .sendall (cmd ++ [10]), .sockRecv 8],
        by simp [send_command_and_get_string_result, hgs, hh], by simp⟩
    · exact ⟨[.settimeout t, .sendall (cmd ++ [10]), .sockRecv 8],
        by simp [send_command_and_get_string_result, hgs, hh], by simp⟩

/-- One unfolding step of the startup ping loop at positive fuel. -/
lemma startup_ping_loop_succ (jl : List Nat → Option JsonVal) (mode : CommMode)
    (att : Nat → Chan) (i fuel : Nat) :
    startup_ping_loop jl mode att i (fuel+1) =
    (match pingAttemptResult jl mode att i with
     | .ok none => startup_ping_loop jl mode att (i+1) fuel
     | .ok (some v) =>
       if v = PyResult.json (.str PONG) then some .ready
       else some (.failed .assertionError)
     | .error .socketError => startup_ping_loop jl mode att (i+1) fuel
     | .error .socketTimeout => startup_ping_loop jl mode att (i+1) fuel
     | .error e => some (.failed e)) := rfl

/-- Skipping `i` retriable attempts advances the loop `i` positions. -/
lemma ping_skip (jl : List Nat → Option JsonVal) (mode : CommMode) (att : Nat → Chan) :
    ∀ i j fuel, (∀ k, k < i → pingRetriable (pingAttemptResult jl mode att (j+k))) →
    startup_ping_loop jl mode att j (i+fuel) = startup_ping_loop jl mode att (j+i) fuel := by
  intro i
  induction i with
  | zero => intro j fuel h; simp
  | succ i ih =>
    intro j fuel h
    have h0 : pingRetriable (pingAttemptResult jl mode att j) := by
      have := h 0 (by omega); simpa using this
    have hrw : i + 1 + fuel = (i + fuel) + 1 := by omega
    rw [hrw, startup_ping_loop_succ]
    have htail : ∀ k, k < i → pingRetriable (pingAttemptResult jl mode att (j+1+k)) := by
      intro k hk
      have := h (k+1) (by omega)
      have harith : j + (k+1) = j + 1 + k := by omega
      rwa [harith] at this
    have hj : j + 1 + i = j + (i + 1) := by omega
    rcases h0 with h0 | h0 | h0 <;>
      · rw [h0]
        rw [ih (j+1) fuel htail, hj]

lemma dget_none_find (d : Dict) (k : String) (h : dget d k = none) :
    d.find? (fun kv => kv.1 == k) = none := by
  simpa [dget] using h

/-- Assigning an absent key appends it. -/
lemma dset_absent (d : Dict) (k v : String) (h : dget d k = none) :
    dset d k v = d ++ [(k, v)] := by
  simp [dset, dget_none_find d k h]

/-- After assigning an absent key, looking it up yields the new value. -/
lemma dget_append_self (d : Dict) (k v : String) (h : dget d k = none) :
    dget (d ++ [(k, v)]) k = some v := by
  induction d with
  | nil => simp [dget, List.find?]
  | cons p d ih =>
    have hfind := dget_none_find (p :: d) k h
    rw [List.find?_cons] at hfind
    rcases hp : (p.1 == k) with _ | _
    · have hd : dget d k = none := by
        simp [dget]
        rw [hp] at hfind
        simpa using hfind
      have := ih hd
      simp only [List.cons_append, dget, List.find?_cons, hp]
      simpa [dget] using this
    · rw [hp] at hfind; simp at hfind

/-- C1: the payload-accumulation loop is bounded: on every schedule it
issues at most 1001 receive attempts, and whenever the declared length
exceeds what the channel can deliver within those attempts — including a
half-open channel delivering only empty reads — it returns the no-result
outcome `None` instead of iterating without bound. -/
theorem C1_recv_loop_bounded :
    (∀ (mode : CommMode) (size : Nat) (reads : Nat → ReadResult),
      countReads (recv_payload mode reads size).2 ≤ 1001) ∧
    (∀ (mode : CommMode) (size : Nat) (reads : Nat → ReadResult),
      (∀ k, k ≤ 1000 → readIsData (reads k) = true) →
      sumReadLens reads 1001 < size →
      (recv_payload mode reads size).1 = .ok none) := by
  constructor
  · intro mode size reads
    have := recvLoopF_reads_le mode reads size 1002 0 [] (by simp)
    simpa [recv_payload] using this
  · intro mode size reads hdata hsum
    have := recvLoopF_under_none mode reads size hdata hsum 1002 0 []
      rfl rfl (by omega) (by simp [curlen, sumReadLens])
    simpa [recv_payload] using this

/-- C1 witness: on a half-open channel that returns an empty read every
time while one byte is still owed, the loop gives up with `None`; and the
read-attempt bound instantiated at a concrete schedule. -/
theorem C1_recv_loop_bounded_witness :
    (recv_payload .SOCKET (fun _ => .data []) 1).1 = .ok none ∧
    countReads (recv_payload .PIPE (fun _ => .data []) 5).2 ≤ 1001 := by
  have hz : ∀ n, sumReadLens (fun _ => ReadResult.data []) n = 0 := by
    intro n
    induction n with
    | zero => rfl
    | succ n ih => simp [sumReadLens_succ, ih, readLen]
  constructor
  · exact C1_recv_loop_bounded.2 .SOCKET 1 (fun _ => .data [])
      (fun k hk => rfl) (by rw [hz]; omega)
  · exact C1_recv_loop_bounded.1 .PIPE 5 (fun _ => .data [])

/-- C2 counterexample: two concrete per-call failures that do not degrade
to the absent sentinel.  A response whose 8-byte length header arrives
truncated (here: the header read returns no bytes) makes
`struct.unpack` raise `struct.error`, which
`send_command_and_parse_result` does not catch; a non-timeout transport
error during a regular call propagates as `socket.error`.  The claim says
both should return `None`. -/
theorem C2_exceptions_escape_counterexample :
    (send_command_and_parse_result json_loads_model .SOCKET shortHeaderChan
        pingCmd 300 false).1 = .error .structError ∧
    (send_command_and_parse_result json_loads_model .SOCKET hdrErrChan
        pingCmd 300 false).1 = .error .socketError :=
  ⟨rfl, rfl⟩

/-- C2 amended: a transport timeout, a truncated payload (the
receive-attempt cap returning no result) and a malformed JSON payload all
degrade to the absent sentinel `None`; but a truncated 8-byte length
header surfaces as an uncaught `struct.error`, and a non-timeout transport
error as an uncaught `socket.error` — only `socket.timeout` and JSON
`ValueError` are swallowed. -/
theorem C2_per_call_failure_dispatch :
    ∀ (jloads : List Nat → Option JsonVal) (mode : CommMode) (chan : Chan)
      (cmd : List Nat) (t : Nat) (raw : Bool),
    ((send_command_and_get_string_result mode chan cmd t).1 = .error .socketTimeout →
      (send_command_and_parse_result jloads mode chan cmd t raw).1 = .ok none) ∧
    ((send_command_and_get_string_result mode chan cmd t).1 = .ok none →
      (send_command_and_parse_result jloads mode chan cmd t raw).1 = .ok none) ∧
    (∀ d, (send_command_and_get_string_result mode chan cmd t).1 = .ok (some d) →
      raw = false → jloads d = none →
      (send_command_and_parse_result jloads mode chan cmd t raw).1 = .ok none) ∧
    ((send_command_and_get_string_result mode chan cmd t).1 = .error .structError →
      (send_command_and_parse_result jloads mode chan cmd t raw).1 = .error .structError) ∧
    ((send_command_and_get_string_result mode chan cmd t).1 = .error .socketError →
      (send_command_and_parse_result jloads mode chan cmd t raw).1 = .error .socketError) := by
  intro jloads mode chan cmd t raw
  refine ⟨?_, ?_, ?_, ?_, ?_⟩
  · intro h; simp [send_command_and_parse_result, h]
  · intro h; simp [send_command_and_parse_result, h]
  · intro d h hraw hj; simp [send_command_and_parse_result, h, hraw, hj]
  · intro h; simp [send_command_and_parse_result, h]
  · intro h; simp [send_command_and_parse_result, h]

/-- C2 witness: the amended dispatch at concrete channels — a malformed
JSON payload yields `None`, a truncated header yields the uncaught
`struct.error`. -/
theorem C2_per_call_failure_dispatch_witness :
    (send_command_and_parse_result json_loads_model .SOCKET (mkChan [120])
        pingCmd 7 false).1 = .ok none ∧
    (send_command_and_parse_result json_loads_model .SOCKET shortHeaderChan
        [80] 7 true).1 = .error .structError := by
  constructor
  · exact (C2_per_call_failure_dispatch json_loads_model .SOCKET (mkChan [120])
      pingCmd 7 false).2.2.1 [120] rfl rfl rfl
  · exact (C2_per_call_failure_dispatch json_loads_model .SOCKET shortHeaderChan
      [80] 7 true).2.2.2.1 rfl

/-- C3 counterexample: a SOCKET-mode call on a concrete channel whose
response is fully read, yet the call's operation trace contains no close —
the source never calls `sock.close()` on the per-call path, contradicting
the claim that the connection is closed after the response is read. -/
theorem C3_socket_left_open_counterexample :
    (send_command_and_get_string_result .SOCKET (mkChan [120]) [88] 5).1
      = .ok (some [120]) ∧
    ChanOp.sockClose ∉ (send_command_and_get_string_result .SOCKET (mkChan [120]) [88] 5).2 := by
  constructor
  · rfl
  · decide

/-- C3 amended: in SOCKET mode every invocation of
`send_command_and_get_string_result` begins by creating a fresh socket
object for this call alone (the trace starts with the trial-0 socket
creation), but the wrapper never closes it: no close operation occurs
anywhere in the call's trace; the connection is left to be reclaimed by
the language runtime. -/
theorem C3_fresh_socket_never_closed :
    ∀ (chan : Chan) (cmd : List Nat) (t : Nat),
    (send_command_and_get_string_result .SOCKET chan cmd t).2.head?
      = some (ChanOp.newSocket 0) ∧
    ChanOp.sockClose ∉ (send_command_and_get_string_result .SOCKET chan cmd t).2 := by
  intro chan cmd t
  obtain ⟨ops2, hops, hcl⟩ := send_command_socket_trace chan cmd t
  obtain ⟨rest, hrest⟩ := get_socket_shape chan.connects 100 0 (by omega)
  constructor
  · rw [hops, hrest]; rfl
  · rw [hops]
    intro hmem
    rcases List.mem_append.mp hmem with h | h
    · exact get_socket_noClose chan.connects 100 0 h
    · exact hcl h

/-- C4 counterexample: attempt 0's reply is successfully and fully
received with payload exactly the raw bytes `PONG` — a payload other than
the JSON-encoded `"PONG"` the server must send — so by the claim the
handshake should fail fatally and never retry; instead the payload fails
JSON decoding, the attempt yields no result, the loop silently retries,
and the handshake completes on attempt 1. -/
theorem C4_undecodable_payload_retried_counterexample :
    (send_command_and_get_string_result .SOCKET (rawPongThenJsonPong 0) pingCmd 2).1
      = .ok (some PONG) ∧
    json_loads_model PONG = none ∧
    startup_ping_loop json_loads_model .SOCKET rawPongThenJsonPong 0 2 = some .ready :=
  ⟨rfl, rfl, rfl⟩

/-- C4 amended: only a reply that JSON-decodes to the string `"PONG"`
completes the handshake; a successfully received reply decoding to any
other value fails the handshake fatally and is never retried; a reply
that yields no result (timeout, or a payload that fails JSON decoding —
including the raw bytes `PONG` themselves) is silently retried; a
transport-level `socket.error` is retried after a fixed sleep, with no
bound on the number of retries. -/
theorem C4_handshake_dispatch :
    ∀ (jl : List Nat → Option JsonVal) (mode : CommMode) (att : Nat → Chan),
    (∀ i fuel v, (∀ k, k < i → pingRetriable (pingAttemptResult jl mode att k)) →
      pingAttemptResult jl mode att i = .ok (some v) →
      v ≠ PyResult.json (.str PONG) →
      startup_ping_loop jl mode att 0 (i + (fuel+1)) = some (.failed .assertionError)) ∧
    (∀ i fuel, (∀ k, k < i → pingRetriable (pingAttemptResult jl mode att k)) →
      pingAttemptResult jl mode att i = .ok (some (.json (.str PONG))) →
      startup_ping_loop jl mode att 0 (i + (fuel+1)) = some .ready) ∧
    ((∀ k, pingRetriable (pingAttemptResult jl mode att k)) →
      ∀ fuel, startup_ping_loop jl mode att 0 fuel = none) := by
  intro jl mode att
  have hskip : ∀ i fuel, (∀ k, k < i → pingRetriable (pingAttemptResult jl mode att k)) →
      startup_ping_loop jl mode att 0 (i + fuel) = startup_ping_loop jl mode att i fuel := by
    intro i fuel h
    have := ping_skip jl mode att i 0 fuel (by intro k hk; simpa using h k hk)
    simpa using this
  refine ⟨?_, ?_, ?_⟩
  · intro i fuel v hpre hi hv
    rw [hskip i (fuel+1) hpre, startup_ping_loop_succ, hi]
    simp [hv]
  · intro i fuel hpre hi
    rw [hskip i (fuel+1) hpre, startup_ping_loop_succ, hi]
    simp
  · intro hall fuel
    have aux : ∀ f j, startup_ping_loop jl mode att j f = none := by
      intro f
      induction f with
      | zero => intro j; rfl
      | succ f ih =>
        intro j
        rw [startup_ping_loop_succ]
        rcases hall j with h | h | h <;> simp only [h] <;> exact ih (j+1)
    exact aux fuel 0

/-- C4 witness: a decoded reply `"X"` (not `"PONG"`) kills the handshake
fatally on the first attempt; and under persistent non-timeout transport
errors the loop is still retrying after any number of unrolled
iterations. -/
theorem C4_handshake_dispatch_witness :
    startup_ping_loop json_loads_model .SOCKET wrongStringPingAtt 0 1
      = some (.failed .assertionError) ∧
    startup_ping_loop json_loads_model .SOCKET (fun _ => hdrErrChan) 0 3 = none := by
  constructor
  · exact (C4_handshake_dispatch json_loads_model .SOCKET wrongStringPingAtt).1 0 0
      (.json (.str [88])) (by intro k hk; omega) rfl (by decide)
  · exact (C4_handshake_dispatch json_loads_model .SOCKET (fun _ => hdrErrChan)).2.2
      (fun k => Or.inr (Or.inl rfl)) 3

/-- C5: `ensure_proc_is_running` invokes `start_server` — the respawn plus
full handshake — exactly when the worker has never been started or has
been observed to have exited; otherwise it changes nothing.  The check is
a plain synchronous function run at the start of a call; no background
mechanism exists in the embedding or the source. -/
theorem C5_ensure_starts_iff :
    ∀ (sr proc : Option ProcHandle),
    ((ensure_proc_is_running sr proc).1 = true ↔
      proc = none ∨ ∃ p, proc = some p ∧ p.poll.isSome) ∧
    ((ensure_proc_is_running sr proc).1 = false →
      ensure_proc_is_running sr proc = (false, proc)) := by
  intro sr proc
  cases proc with
  | none =>
    constructor
    · simp [ensure_proc_is_running]
    · intro h; simp [ensure_proc_is_running] at h
  | some p =>
    by_cases hp : p.poll.isSome
    · constructor
      · simp [ensure_proc_is_running, hp]
      · intro h; simp [ensure_proc_is_running, hp] at h
    · constructor
      · simp [ensure_proc_is_running, hp]
      · intro h; simp [ensure_proc_is_running, hp]

/-- C5 witness: on a live process (started, not exited) nothing is
restarted and the handle is untouched. -/
theorem C5_ensure_starts_iff_witness :
    ensure_proc_is_running none (some ⟨3, none⟩) = (false, some ⟨3, none⟩) :=
  (C5_ensure_starts_iff none (some ⟨3, none⟩)).2 rfl

/-- C6: in every communication mode, when the glob expansion of
`corenlp_jars` resolves to zero existing files, construction fails with
the jar-check assertion and no worker-spawn event is ever emitted:
the `assert any(os.path.exists(f) ...)` on line 134 precedes the
`start_server()` call on line 146. -/
theorem C6_missing_jars_fail_before_spawn :
    ∀ (globFn : String → List String) (fsExists : String → Bool)
      (cm : CommMode) (pe : Bool) (jars : List String),
    (jars.flatMap globFn).all (fun f => !fsExists f) = true →
    CoreNLP_init globFn fsExists cm pe jars = (.error .assertionError, []) := by
  intro g fs cm pe jars h
  have hany : (jars.flatMap g).any fs = false := by
    rw [List.any_eq_false]
    intro x hx
    have := (List.all_eq_true.mp h) x hx
    simpa using this
  unfold CoreNLP_init
  cases cm <;> cases pe <;> simp [hany]

/-- C6 witness: the repository's own `test_paths` scenario — a single
nonexistent jar path — fails construction with no spawn, in SOCKET
mode. -/
theorem C6_missing_jars_fail_before_spawn_witness :
    CoreNLP_init (fun _ => []) (fun _ => false) .SOCKET false
        ["/asdfadsf/asdfasdf"] = (.error .assertionError, []) :=
  C6_missing_jars_fail_before_spawn (fun _ => []) (fun _ => false) .SOCKET false
    ["/asdfadsf/asdfasdf"] rfl

/-- C7: teardown is idempotent: running `cleanup` on the state a first
`cleanup` left behind changes nothing and emits no effect — in
particular `kill_proc_if_running` sends no signal to a never-started or
already-exited process, and the pipe file, once removed, is not touched
again. -/
theorem C7_cleanup_idempotent :
    (∀ s : PySession, cleanup (cleanup s).1 = ((cleanup s).1, [])) ∧
    (∀ s : PySession, s.proc = none → kill_proc_if_running s = (s, [])) ∧
    (∀ (s : PySession) (p : ProcHandle), s.proc = some p → p.poll.isSome →
      kill_proc_if_running s = (s, [])) := by
  refine ⟨?_, ?_, ?_⟩
  · intro s
    rcases s with ⟨proc, op, pe⟩
    rcases proc with _ | ⟨pid, poll⟩
    · by_cases hq : pyTruthyStr op = true <;> by_cases hpe : pe = true <;>
        simp [cleanup, kill_proc_if_running, hq, hpe]
    · rcases poll with _ | c <;>
        (by_cases hq : pyTruthyStr op = true <;> by_cases hpe : pe = true <;>
          simp [cleanup, kill_proc_if_running, hq, hpe])
  · intro s h
    simp [kill_proc_if_running, h]
  · intro s p h hp
    rcases Option.isSome_iff_exists.mp hp with ⟨c, hc⟩
    simp [kill_proc_if_running, h, hc]

/-- C7 witness: a full double teardown of a PIPE-mode session with a live
worker, and a kill on an already-exited process sending nothing. -/
theorem C7_cleanup_idempotent_witness :
    cleanup (cleanup ⟨some ⟨7, none⟩, some "/tmp/p", true⟩).1
      = ((cleanup ⟨some ⟨7, none⟩, some "/tmp/p", true⟩).1, []) ∧
    kill_proc_if_running ⟨some ⟨7, some 0⟩, none, false⟩
      = (⟨some ⟨7, some 0⟩, none, false⟩, []) := by
  constructor
  · exact C7_cleanup_idempotent.1 ⟨some ⟨7, none⟩, some "/tmp/p", true⟩
  · exact C7_cleanup_idempotent.2.2 ⟨some ⟨7, some 0⟩, none, false⟩ ⟨7, some 0⟩ rfl rfl

/-- C8: in PIPE mode the per-call timeout has no influence: for the same
command and the same channel data, any two timeout values produce the
identical result and the identical operation trace — the timeout is
consulted only by the SOCKET branch (its `sock.settimeout`). -/
theorem C8_pipe_timeout_noninterference :
    ∀ (chan : Chan) (cmd : List Nat) (t1 t2 : Nat),
    send_command_and_get_string_result .PIPE chan cmd t1
      = send_command_and_get_string_result .PIPE chan cmd t2 :=
  fun _ _ _ _ => rfl

/-- C9: constructing with a mode preset and a caller-supplied configdict
lacking an `annotators` key mutates the caller's dict object in place:
after the `command(...)` call performed during construction the caller's
dict carries the preset's annotator string under `annotators`, and the
dict is no longer the dict the caller passed in. -/
theorem C9_configdict_mutated :
    ∀ (m ann : String) (cf : Option String) (d : Dict),
    m ≠ "" → modesLookup m = some ann → dget d "annotators" = none →
    command_configdict_after (some m) cf (some d)
      = .ok (some (dset d "annotators" ann)) ∧
    dget (dset d "annotators" ann) "annotators" = some ann ∧
    dset d "annotators" ann ≠ d := by
  intro m ann cf d hm hlook hd
  have habs := dset_absent d "annotators" ann hd
  refine ⟨?_, ?_, ?_⟩
  · simp [command_configdict_after, hm, hlook, hd]
  · rw [habs]
    exact dget_append_self d "annotators" ann hd
  · rw [habs]
    intro hcontra
    have := congrArg List.length hcontra
    simp at this

/-- C9 witness: the `pos` preset inserted into an initially empty
caller-supplied dict. -/
theorem C9_configdict_mutated_witness :
    command_configdict_after (some "pos") none (some [])
      = .ok (some [("annotators", "tokenize, ssplit, pos, lemma")]) ∧
    dget [("annotators", "tokenize, ssplit, pos, lemma")] "annotators"
      = some "tokenize, ssplit, pos, lemma" := by
  have h := C9_configdict_mutated "pos" "tokenize, ssplit, pos, lemma" none []
    (by decide) (by decide) rfl
  exact ⟨h.1, h.2.1⟩

/-- C10: a frame whose declared length is zero makes the receive loop
stop after exactly one read with the empty payload; with `raw=True` the
call returns the empty byte string, and with `raw=False` the empty
payload fails JSON parsing and the call returns `None`. -/
theorem C10_zero_length_frame :
    ∀ (jloads : List Nat → Option JsonVal) (mode : CommMode) (chan : Chan)
      (cmd : List Nat) (t : Nat) (r0 : List Nat),
    chan.connects 0 = true →
    chan.header = .data (List.replicate 8 0) →
    chan.reads 0 = .data r0 →
    jloads [] = none →
    (recv_payload mode chan.reads 0).1 = .ok (some []) ∧
    countReads (recv_payload mode chan.reads 0).2 = 1 ∧
    (send_command_and_parse_result jloads mode chan cmd t true).1
      = .ok (some (.raw [])) ∧
    (send_command_and_parse_result jloads mode chan cmd t false).1 = .ok none := by
  intro jloads mode chan cmd t r0 hconn hheader hreads hjl
  have hloop : recv_payload mode chan.reads 0 = (.ok (some []), [recvOp mode 0]) := by
    rw [recv_payload, show (1002:Nat) = 1001+1 from rfl, recvLoopF_succ]
    simp [hreads, curlen]
  have hstr1 : (send_command_and_get_string_result mode chan cmd t).1
      = .ok (some []) := by
    have htake : (List.replicate 8 (0:Nat)).take 8 = List.replicate 8 (0:Nat) := rfl
    have hbe : beVal ((List.replicate 8 (0:Nat)).take 8) = 0 := rfl
    have hbe2 : beVal [0, 0, 0, 0, 0, 0, 0, 0] = 0 := rfl
    cases mode with
    | SOCKET =>
      have hgs : get_socket chan.connects 100 0 = (.ok 0, [.newSocket 0, .connect 0]) := by
        rw [show (100:Nat) = 99+1 from rfl]
        simp [get_socket, hconn]
      simp [send_command_and_get_string_result, hgs, hheader, htake, hbe, hbe2, hloop,
        List.length_replicate]
    | PIPE =>
      simp [send_command_and_get_string_result, hheader, htake, hbe, hbe2, hloop,
        List.length_replicate]
  refine ⟨?_, ?_, ?_, ?_⟩
  · rw [hloop]
  · rw [hloop]
    cases mode <;> simp [countReads, recvOp]
  · simp [send_command_and_parse_result, hstr1]
  · simp [send_command_and_parse_result, hstr1, hjl]

/-- C10 witness: the zero-length frame on a concrete channel, in both
modes and both raw settings. -/
theorem C10_zero_length_frame_witness :
    (send_command_and_parse_result json_loads_model .SOCKET zeroChan pingCmd 9 true).1
      = .ok (some (.raw [])) ∧
    (send_command_and_parse_result json_loads_model .PIPE zeroChan pingCmd 9 false).1
      = .ok none := by
  constructor
  · exact (C10_zero_length_frame json_loads_model .SOCKET zeroChan pingCmd 9 []
      rfl rfl rfl rfl).2.2.1
  · exact (C10_zero_length_frame json_loads_model .PIPE zeroChan pingCmd 9 []
      rfl rfl rfl rfl).2.2.2

